import Mathlib

/-!
Verification of the LQA analysis pipeline of V2-Vision-LQA-Pro.

The definitions below are a shallow embedding of the TypeScript sources:
* `src/unnamed/part_000` (the LQA SkillBank: `SCENE_KEYWORDS`, `detectSceneType`),
* `src/services/llmService.ts` (`sanitizeReport`, `verifyIssues`, `retryWithBackoff`,
  `callTranslationQaLLM`),
* `src/functions/src/index.ts` (the server-side variant `analyzeScreenshot`).

Network calls are modelled by passing the outcome of each backend invocation as an
explicit argument (an `Except` value for a call that can throw, a function
`Nat → Except ε α` giving the outcome of the i-th attempt for retried calls), and JSON
parsing of verifier responses is an abstract parameter function.  In-place JavaScript
mutation of the report object is modelled by explicit state passing.
-/

/-! ## String helpers

JavaScript `String.prototype.includes` is a plain substring test; it is embedded as a
character-list scan (`charsStartWith` / `charsContain`). -/

/-- `charsStartWith hay needle` is true when `needle` is a prefix of `hay`. -/
def charsStartWith : List Char → List Char → Bool
  | _, [] => true
  | [], _ :: _ => false
  | h :: hs, n :: ns => h == n && charsStartWith hs ns

/-- `charsContain hay needle` is true when `needle` occurs as a contiguous
segment of `hay` (the semantics of JavaScript `hay.includes(needle)`). -/
def charsContain : List Char → List Char → Bool
  | hay, needle =>
    charsStartWith hay needle ||
    match hay with
    | [] => false
    | _ :: rest => charsContain rest needle

/-- JavaScript `s.includes(sub)`. -/
def strIncludes (s sub : String) : Bool :=
  charsContain s.toList sub.toList

/-- JavaScript `s.toLowerCase()`, as a character-wise map (the case-bearing
characters appearing in this code base are ASCII). -/
def strToLower (s : String) : String :=
  String.mk (s.toList.map Char.toLower)

/-! ## Scene classifier (src/unnamed/part_000, `SCENE_KEYWORDS` and `detectSceneType`) -/

/-- The closed `SceneType` enumeration of the SkillBank. -/
inductive SceneType where
  | navigation
  | form
  | dashboard
  | modal
  | table
  | settings
  | error_page
  | generic
deriving DecidableEq, Repr

/-- The static `SCENE_KEYWORDS` table (src/unnamed/part_000, lines 266-275). -/
def SCENE_KEYWORDS : SceneType → List String
  | .navigation => ["nav", "menu", "sidebar", "breadcrumb", "header", "tab", "toolbar",
      "navigation", "导航", "菜单", "标签栏"]
  | .form => ["form", "input", "field", "submit", "login", "signup", "register",
      "password", "email", "search", "表单", "输入", "登录"]
  | .dashboard => ["dashboard", "analytics", "chart", "graph", "kpi", "metric",
      "overview", "stats", "仪表板", "概览", "统计"]
  | .modal => ["modal", "dialog", "popup", "confirm", "alert", "overlay",
      "弹窗", "对话框", "确认"]
  | .table => ["table", "grid", "list", "column", "row", "data", "sort", "filter",
      "表格", "列表", "数据"]
  | .settings => ["setting", "preference", "config", "option", "account", "profile",
      "toggle", "switch", "设置", "偏好", "配置"]
  | .error_page => ["error", "404", "500", "not found", "oops", "something went wrong",
      "错误", "未找到"]
  | .generic => []

/-- The iteration order of `Object.entries(SCENE_KEYWORDS)` (insertion order). -/
def sceneEntries : List SceneType :=
  [.navigation, .form, .dashboard, .modal, .table, .settings, .error_page, .generic]

/-- `keywords.filter(kw => lower.includes(kw)).length` for one scene category. -/
def sceneHitCount (lower : String) (scene : SceneType) : Nat :=
  ((SCENE_KEYWORDS scene).filter (fun kw => strIncludes lower kw)).length

/-- `detectSceneType` (src/unnamed/part_000, lines 281-296): lower-case the input,
fold over the keyword table keeping the best strictly-greater score, skipping the
`generic` entry, starting from `(generic, 0)`. -/
def detectSceneType (text : String) : SceneType :=
  let lower := strToLower text
  (sceneEntries.foldl
    (fun acc scene =>
      if scene = SceneType.generic then acc
      else
        let score := sceneHitCount lower scene
        if score > acc.2 then (scene, score) else acc)
    (SceneType.generic, 0)).1

/-! Spec-side characterization of the classifier, used to state claim C7. -/

/-- The non-generic categories in table order. -/
def nonGenericScenes : List SceneType :=
  [.navigation, .form, .dashboard, .modal, .table, .settings, .error_page]

/-- Maximum of `cnt` over a list of scenes (0 for the empty list). -/
def listMax (cnt : SceneType → Nat) : List SceneType → Nat
  | [] => 0
  | s :: rest => max (cnt s) (listMax cnt rest)

/-- The highest keyword hit count over all non-generic categories. -/
def maxHitCount (lower : String) : Nat :=
  listMax (sceneHitCount lower) nonGenericScenes

/-- The classifier as the spec words it (spec §4.1): return the category with the
highest strictly-positive hit count, ties keeping the first-encountered leader in
table order, and `generic` when every category scores zero. -/
def specDetectSceneType (text : String) : SceneType :=
  let lower := strToLower text
  if maxHitCount lower = 0 then SceneType.generic
  else
    (nonGenericScenes.find? (fun s => sceneHitCount lower s == maxHitCount lower)).getD
      SceneType.generic

theorem listMax_attained (cnt : SceneType → Nat) :
    ∀ l : List SceneType, listMax cnt l = 0 ∨ ∃ s ∈ l, cnt s = listMax cnt l := by
  intro l
  induction l with
  | nil => exact Or.inl rfl
  | cons s r ih =>
    rcases Nat.le_total (listMax cnt r) (cnt s) with h | h
    · right
      exact ⟨s, List.mem_cons_self s r, by simp [listMax, Nat.max_eq_left h]⟩
    · have hmax : listMax cnt (s :: r) = listMax cnt r := by
        simp [listMax, Nat.max_eq_right h]
      rcases ih with h0 | ⟨t, ht, hval⟩
      · left
        rw [hmax, h0]
      · right
        exact ⟨t, List.mem_cons_of_mem _ ht, by rw [hmax]; exact hval⟩

theorem bestFold (cnt : SceneType → Nat) :
    ∀ (l : List SceneType) (bs : SceneType) (bc : Nat),
      l.foldl (fun acc s => if cnt s > acc.2 then (s, cnt s) else acc) (bs, bc) =
        if listMax cnt l ≤ bc then (bs, bc)
        else ((l.find? (fun s => cnt s == listMax cnt l)).getD bs, listMax cnt l) := by
  intro l
  induction l with
  | nil =>
    intro bs bc
    simp [listMax]
  | cons s r ih =>
    intro bs bc
    rw [List.foldl_cons]
    by_cases hgt : cnt s > bc
    · have hstep :
          (if cnt s > (bs, bc).2 then (s, cnt s) else (bs, bc)) = (s, cnt s) := by
        simp [hgt]
      rw [hstep, ih s (cnt s)]
      by_cases hM : listMax cnt r ≤ cnt s
      · have hT : listMax cnt (s :: r) = cnt s := by
          simp [listMax, Nat.max_eq_left hM]

        simp [hM, hT, Nat.not_le.mpr hgt, List.find?_cons]
      · have hlt : cnt s < listMax cnt r := Nat.not_le.mp hM
        have hT : listMax cnt (s :: r) = listMax cnt r := by
          simp [listMax, Nat.max_eq_right (Nat.le_of_lt hlt)]
        have hble : ¬ listMax cnt (s :: r) ≤ bc := by
          rw [hT]; omega
        have hne : (cnt s == listMax cnt r) = false := by
          simp; omega
        have hsome : ∃ w, r.find? (fun x => cnt x == listMax cnt r) = some w := by
          rcases listMax_attained cnt r with h0 | ⟨t, ht, hval⟩
          · omega
          · refine Option.isSome_iff_exists.mp ?_
            rw [List.find?_isSome]
            exact ⟨t, ht, by simp [hval]⟩
        rcases hsome with ⟨w, hw⟩
        have hble2 : ¬ listMax cnt r ≤ bc := by omega
        simp [hM, hT, hble2, List.find?_cons, hne, hw]
    · have hstep :
          (if cnt s > (bs, bc).2 then (s, cnt s) else (bs, bc)) = (bs, bc) := by
        simp [hgt]
      rw [hstep, ih bs bc]
      have hle : cnt s ≤ bc := Nat.not_lt.mp hgt
      by_cases hM : listMax cnt r ≤ bc
      · have hT : listMax cnt (s :: r) ≤ bc := by
          simp [listMax, Nat.max_le]
          exact ⟨hle, hM⟩
        simp [hM, hT]
      · have hMgt : bc < listMax cnt r := Nat.not_le.mp hM
        have hT : listMax cnt (s :: r) = listMax cnt r := by
          simp [listMax, Nat.max_eq_right (Nat.le_of_lt (Nat.lt_of_le_of_lt hle hMgt))]
        have hble : ¬ listMax cnt (s :: r) ≤ bc := by
          rw [hT]; omega
        have hne : (cnt s == listMax cnt r) = false := by
          simp; omega
        simp [hM, hT, hble, List.find?_cons, hne]

theorem detect_fold_eq (text : String) :
    detectSceneType text =
      (nonGenericScenes.foldl
        (fun acc s =>
          if sceneHitCount (strToLower text) s > acc.2 then (s, sceneHitCount (strToLower text) s)
          else acc)
        (SceneType.generic, 0)).1 := by
  rfl

/-- Claim C7: `detectSceneType` lower-cases its input, counts per-category keyword
hits from the static table, and returns the category with the highest
strictly-positive count, ties resolved in favor of the first-encountered leader in
table order; when every category counts zero it returns `generic`.  This is stated
as equality with `specDetectSceneType`, the classifier transcribed from the spec's
words. -/
theorem c7_detectSceneType_matches_spec (text : String) :
    detectSceneType text = specDetectSceneType text := by
  rw [detect_fold_eq, bestFold (sceneHitCount (strToLower text)) nonGenericScenes
    SceneType.generic 0]
  unfold specDetectSceneType maxHitCount
  by_cases h : listMax (sceneHitCount (strToLower text)) nonGenericScenes = 0
  · simp [h]
  · have hnle : ¬ listMax (sceneHitCount (strToLower text)) nonGenericScenes ≤ 0 := by omega
    simp [h, hnle]

/-! ## Report data model (src/services/llmService.ts schema and src/types) -/

/-- One QA issue of the report (fields of `qaIssueSchema`, llmService.ts lines
14-49).  Optional fields of the schema are `Option`s; `glossaryTermId := none`
models both an absent field and the JavaScript `undefined` it is cleared to. -/
structure QaIssue where
  id : String
  location : String
  issueCategory : String
  severity : String
  sourceText : Option String
  targetText : Option String
  description : String
  suggestionRationale : String
  suggestionsTarget : List String
  glossarySource : Option String
  glossaryTermId : Option String
deriving DecidableEq, Repr

/-- The six score dimensions (`scoresSchema`). -/
structure Scores where
  accuracy : Int
  terminology : Int
  layout : Int
  grammar : Int
  formatting : Int
  localizationTone : Int
deriving DecidableEq, Repr

/-- The `overall` block of a report (`overallSchema`). -/
structure Overall where
  qualityLevel : String
  scores : Scores
  sceneDescription : String
  mainProblemsSummary : String
deriving DecidableEq, Repr

/-- The `summary` block of a report (`summarySchema`). -/
structure Summary where
  severeCount : Int
  majorCount : Int
  minorCount : Int
  optimizationAdvice : String
  termAdvice : Option String
deriving DecidableEq, Repr

/-- A parsed `ScreenshotReport` (`reportResponseSchema`). -/
structure ScreenshotReport where
  screenshotId : String
  overall : Overall
  issues : List QaIssue
  summary : Summary
deriving DecidableEq, Repr

/-! ## Glossary tag extraction (`glossaryText.match(/\[ID:TERM-\d+\]/g)`) -/

/-- Try to match the pattern `[ID:TERM-` digits `]` at the head of `cs`,
returning the matched text. -/
def matchTagAt (cs : List Char) : Option String :=
  let p := "[ID:TERM-".toList
  if cs.take p.length = p then
    let afterTagHead := cs.drop p.length
    let ds := afterTagHead.takeWhile Char.isDigit
    let afterDigits := afterTagHead.drop ds.length
    if ds.isEmpty then none
    else
      match afterDigits with
      | ']' :: _ => some (String.mk (p ++ ds ++ [']']))
      | _ => none
  else none

/-- All matches of `/\[ID:TERM-\d+\]/g` in order.  The scan advances one
character at a time; because a match contains `[` only at its first character,
matches can never overlap, so this yields exactly the non-overlapping global
matches of the JavaScript regex. -/
def scanTags : List Char → List String
  | [] => []
  | c :: rest =>
    match matchTagAt (c :: rest) with
    | some tag => tag :: scanTags rest
    | none => scanTags rest

/-- The set of valid glossary ids collected by `sanitizeReport` (llmService.ts
lines 200-204); membership below plays the role of `validIds.has`. -/
def extractValidIds (glossaryText : String) : List String :=
  scanTags glossaryText.toList

/-! ## Hallucination guardrail `sanitizeReport` (llmService.ts lines 195-232) -/

/-- `` const formattedId = termIdRaw ? `[ID:${termIdRaw}]` : null ``; the empty
string is falsy in JavaScript, hence the extra check. -/
def issueFormattedId (issue : QaIssue) : Option String :=
  match issue.glossaryTermId with
  | none => none
  | some t => if t = "" then none else some ("[ID:" ++ t ++ "]")

/-- `const isValid = formattedId && validIds.has(formattedId)` of the guard. -/
def issueGrounded (validIds : List String) (issue : QaIssue) : Bool :=
  match issueFormattedId issue with
  | none => false
  | some f => validIds.contains f

/-- The per-issue body of the `report.issues.forEach` in `sanitizeReport`:
a `Terminology` issue whose id is not grounded in the glossary is downgraded. -/
def sanitizeIssue (validIds : List String) (issue : QaIssue) : QaIssue :=
  if issue.issueCategory == "Terminology" then
    if issueGrounded validIds issue then issue
    else
      { issue with
        issueCategory := "Style"
        severity := "Minor"
        description := "[Auto-Downgraded] " ++ issue.description ++
          " (Reason: Terminology ID not found in glossary)"
        glossaryTermId := none
        glossarySource := some "LLM Knowledge (Downgraded)" }
  else issue

/-- `sanitizeReport` (llmService.ts lines 195-232).  `glossaryText` is
`string | undefined`; `if (!glossaryText) return` is an early no-op for both
`undefined` and the empty string (JavaScript falsiness). -/
def sanitizeReport (report : ScreenshotReport) (glossaryText : Option String) :
    ScreenshotReport :=
  match glossaryText with
  | none => report
  | some g =>
    if g = "" then report
    else
      let validIds := extractValidIds g
      let sanitized := report.issues.map (sanitizeIssue validIds)
      let report1 := { report with issues := sanitized }
      if (sanitized.filter (fun i => i.issueCategory == "Terminology")).length = 0 then
        { report1 with overall := { report1.overall with scores :=
            { report1.overall.scores with terminology := 5 } } }
      else report1

theorem sanitizeIssue_idem (validIds : List String) (issue : QaIssue) :
    sanitizeIssue validIds (sanitizeIssue validIds issue) = sanitizeIssue validIds issue := by
  by_cases hc : issue.issueCategory == "Terminology"
  · by_cases hg : issueGrounded validIds issue
    · simp [sanitizeIssue, hc, hg]
    · have h1 : sanitizeIssue validIds issue =
          { issue with
            issueCategory := "Style"
            severity := "Minor"
            description := "[Auto-Downgraded] " ++ issue.description ++
              " (Reason: Terminology ID not found in glossary)"
            glossaryTermId := none
            glossarySource := some "LLM Knowledge (Downgraded)" } := by
        simp [sanitizeIssue, hc, hg]
      rw [h1]
      have h2 : ((({ issue with
            issueCategory := "Style"
            severity := "Minor"
            description := "[Auto-Downgraded] " ++ issue.description ++
              " (Reason: Terminology ID not found in glossary)"
            glossaryTermId := none
            glossarySource := some "LLM Knowledge (Downgraded)" } : QaIssue)).issueCategory
            == "Terminology") = false := by rfl
      simp [sanitizeIssue, h2]
  · simp [sanitizeIssue, hc]

theorem sanitizeReport_some (report : ScreenshotReport) (g : String) (hg : g ≠ "") :
    sanitizeReport report (some g) =
      (if ((report.issues.map (sanitizeIssue (extractValidIds g))).filter
            (fun i => i.issueCategory == "Terminology")).length = 0 then
        { report with
          issues := report.issues.map (sanitizeIssue (extractValidIds g))
          overall := { report.overall with scores :=
            { report.overall.scores with terminology := 5 } } }
      else { report with issues := report.issues.map (sanitizeIssue (extractValidIds g)) }) := by
  simp only [sanitizeReport, hg, if_false]

/-- Claim C9: with an `undefined` or empty glossary text, `sanitizeReport`
returns immediately and leaves the report completely unchanged. -/
theorem c9_sanitize_skips_empty_glossary (report : ScreenshotReport) :
    sanitizeReport report none = report ∧ sanitizeReport report (some "") = report := by
  constructor
  · rfl
  · simp [sanitizeReport]

/-- Claim C8: `sanitizeReport` is idempotent — sanitizing twice with the same
glossary text yields exactly the report obtained by sanitizing once. -/
theorem c8_sanitize_idempotent (report : ScreenshotReport) (glossaryText : Option String) :
    sanitizeReport (sanitizeReport report glossaryText) glossaryText =
      sanitizeReport report glossaryText := by
  cases glossaryText with
  | none => rfl
  | some g =>
    by_cases hg : g = ""
    · subst hg
      simp [sanitizeReport]
    · have hmap : ∀ l : List QaIssue,
          (l.map (sanitizeIssue (extractValidIds g))).map (sanitizeIssue (extractValidIds g)) =
            l.map (sanitizeIssue (extractValidIds g)) := by
        intro l
        rw [List.map_map]
        exact List.map_congr_left (fun i _ => sanitizeIssue_idem _ i)
      rw [sanitizeReport_some report g hg]
      by_cases hcnt : ((report.issues.map (sanitizeIssue (extractValidIds g))).filter
          (fun i => i.issueCategory == "Terminology")).length = 0
      · rw [if_pos hcnt]
        rw [sanitizeReport_some _ g hg]
        simp only [hmap, hcnt, if_pos]
      · rw [if_neg hcnt]
        rw [sanitizeReport_some _ g hg]
        simp [hmap, hcnt]

/-! ## Claim C2: downgrade of ungrounded Terminology issues -/

/-- The downgrade the hallucination guard applies to an ungrounded Terminology
issue (llmService.ts lines 214-223), written out once for claim statements. -/
def specDowngradeIssue (i : QaIssue) : QaIssue :=
  { i with
    issueCategory := "Style"
    severity := "Minor"
    description := "[Auto-Downgraded] " ++ i.description ++
      " (Reason: Terminology ID not found in glossary)"
    glossaryTermId := none
    glossarySource := some "LLM Knowledge (Downgraded)" }

/-- Claim C2 (amended): provided the glossary text is non-empty — sanitization
is skipped entirely for an `undefined` or empty glossary — a report in which
every Terminology issue is ungrounded comes out of `sanitizeReport` with every
such issue downgraded to a Minor Style issue carrying the auto-downgrade marker,
a cleared `glossaryTermId`, the downgraded-knowledge `glossarySource` sentinel,
and the terminology score forced to exactly 5. -/
theorem c2_amended_all_ungrounded (report : ScreenshotReport) (g : String) (hg : g ≠ "")
    (hall : ∀ i ∈ report.issues, i.issueCategory = "Terminology" →
      issueGrounded (extractValidIds g) i = false) :
    (sanitizeReport report (some g)).overall.scores.terminology = 5 ∧
    (sanitizeReport report (some g)).issues = report.issues.map (fun i =>
      if i.issueCategory = "Terminology" then specDowngradeIssue i else i) := by
  have hmapeq : report.issues.map (sanitizeIssue (extractValidIds g)) =
      report.issues.map (fun i =>
        if i.issueCategory = "Terminology" then specDowngradeIssue i else i) := by
    refine List.map_congr_left (fun i hi => ?_)
    by_cases hcat : i.issueCategory = "Terminology"
    · have hb : (i.issueCategory == "Terminology") = true := by
        simp [hcat]
      simp [sanitizeIssue, hb, hall i hi hcat, hcat, specDowngradeIssue]
    · have hb : (i.issueCategory == "Terminology") = false := by
        simp [hcat]
      simp [sanitizeIssue, hb, hcat]
  have hnone : ∀ j ∈ report.issues.map (fun i =>
      if i.issueCategory = "Terminology" then specDowngradeIssue i else i),
      ¬ (j.issueCategory == "Terminology") = true := by
    intro j hj
    rcases List.mem_map.mp hj with ⟨i, _, rfl⟩
    by_cases hcat : i.issueCategory = "Terminology"
    · simp [hcat, specDowngradeIssue]
    · simp [hcat]
  have hfilter : ((report.issues.map (sanitizeIssue (extractValidIds g))).filter
      (fun i => i.issueCategory == "Terminology")).length = 0 := by
    rw [hmapeq, List.length_eq_zero, List.filter_eq_nil_iff]
    intro j hj
    exact fun hb => hnone j hj hb
  rw [sanitizeReport_some report g hg, if_pos hfilter]
  exact ⟨rfl, hmapeq⟩

def c2Issue : QaIssue :=
  { id := "Issue-01"
    location := "Toolbar"
    issueCategory := "Terminology"
    severity := "Major"
    sourceText := some "Site"
    targetText := some "Seite"
    description := "Glossary mismatch"
    suggestionRationale := "Glossary compliance"
    suggestionsTarget := ["Standort"]
    glossarySource := some "glossary_de.xlsx"
    glossaryTermId := some "TERM-001" }

def c2Report : ScreenshotReport :=
  { screenshotId := "shot-7"
    overall :=
      { qualityLevel := "Average"
        scores :=
          { accuracy := 4, terminology := 3, layout := 5, grammar := 5,
            formatting := 5, localizationTone := 4 }
        sceneDescription := "settings page"
        mainProblemsSummary := "terminology drift" }
    issues := [c2Issue]
    summary :=
      { severeCount := 0, majorCount := 1, minorCount := 0,
        optimizationAdvice := "review terms", termAdvice := none } }

/-- Claim C2 counterexample: with the empty glossary text, every Terminology
issue of `c2Report` is ungrounded (the glossary contains no tag at all), yet
`sanitizeReport` is a no-op: the issue keeps category `Terminology` with
severity `Major` and the terminology score stays 3, not 5. -/
theorem c2_counterexample :
    (c2Report.issues.all (fun i => !(i.issueCategory == "Terminology") ||
        !issueGrounded (extractValidIds "") i)) = true ∧
    sanitizeReport c2Report (some "") = c2Report ∧
    c2Report.overall.scores.terminology ≠ 5 ∧
    ((sanitizeReport c2Report (some "")).issues.any
      (fun i => i.issueCategory == "Terminology" && !(i.severity == "Minor"))) = true := by
  refine ⟨by decide, by decide, by decide, by decide⟩

def c2wGlossary : String :=
  "[ID:TERM-001] Site = Standort [source: glossary_de.xlsx]"

def c2wIssue : QaIssue :=
  { id := "Issue-02"
    location := "Header"
    issueCategory := "Terminology"
    severity := "Major"
    sourceText := some "Plant"
    targetText := some "Pflanze"
    description := "Wrong term for Plant"
    suggestionRationale := "Glossary compliance"
    suggestionsTarget := ["Werk"]
    glossarySource := some "glossary_de.xlsx"
    glossaryTermId := some "TERM-999" }

def c2wReport : ScreenshotReport :=
  { screenshotId := "shot-8"
    overall :=
      { qualityLevel := "Average"
        scores :=
          { accuracy := 4, terminology := 2, layout := 5, grammar := 5,
            formatting := 5, localizationTone := 4 }
        sceneDescription := "navigation bar"
        mainProblemsSummary := "one terminology claim" }
    issues := [c2wIssue]
    summary :=
      { severeCount := 0, majorCount := 1, minorCount := 0,
        optimizationAdvice := "check glossary", termAdvice := none } }

theorem c2_amended_witness :
    (c2wGlossary ≠ "") ∧
    (∀ i ∈ c2wReport.issues, i.issueCategory = "Terminology" →
      issueGrounded (extractValidIds c2wGlossary) i = false) ∧
    ((sanitizeReport c2wReport (some c2wGlossary)).overall.scores.terminology = 5 ∧
      (sanitizeReport c2wReport (some c2wGlossary)).issues = c2wReport.issues.map (fun i =>
        if i.issueCategory = "Terminology" then specDowngradeIssue i else i)) :=
  ⟨by decide, by decide,
    c2_amended_all_ungrounded c2wReport c2wGlossary (by decide) (by decide)⟩

/-! ## Verifier agent `verifyIssues` (llmService.ts lines 235-371)

The two backend calls are passed in as `Except` outcomes and the JSON decoding of
the cleaned response text (code-fence stripping, `JSON.parse`, extraction of the
`verifiedIssues` array) is an abstract `parseVerdicts` function: a `none` result
models a `JSON.parse` exception, `some []` models a parse that found no usable
`verifiedIssues` array. -/

/-- A backend response; `text := none` models an absent `response.text`. -/
structure GenResponse where
  text : Option String
deriving DecidableEq, Repr

/-- One entry of `verificationSchema.verifiedIssues`. -/
structure VerificationVerdict where
  id : String
  isValid : Bool
  reason : Option String
  refinedSeverity : Option String
  refinedRationale : Option String
deriving DecidableEq, Repr

/-- The `verifiedIssuesMap` lookup: `forEach`+`Map.set` keeps the last verdict
with a given id, so lookup is the first match in the reversed list. -/
def lookupVerdict (verdicts : List VerificationVerdict) (issueId : String) :
    Option VerificationVerdict :=
  verdicts.reverse.find? (fun v => v.id == issueId)

/-- `` const reasonLower = (verdict.reason || '').toLowerCase() `` followed by the
three hallucination-phrase `includes` checks (llmService.ts lines 340-341). -/
def hallucinationReason (v : VerificationVerdict) : Bool :=
  let reasonLower := strToLower (v.reason.getD "")
  strIncludes reasonLower "hallucination" || strIncludes reasonLower "not visible" ||
    strIncludes reasonLower "does not exist"

/-- The body of the `initialReport.issues.filter` merge (llmService.ts lines
336-361); `none` means the issue is dropped.  JavaScript truthiness on
`refinedSeverity`/`refinedRationale` makes the empty string a no-op. -/
def mergeVerdict (verdicts : List VerificationVerdict) (issue : QaIssue) :
    Option QaIssue :=
  match lookupVerdict verdicts issue.id with
  | none => some issue
  | some verdict =>
    if verdict.isValid then
      let issue1 :=
        match verdict.refinedSeverity with
        | some s => if s = "" then issue else { issue with severity := s }
        | none => issue
      let issue2 :=
        match verdict.refinedRationale with
        | some rtext => if rtext = "" then issue1
            else { issue1 with suggestionRationale := rtext }
        | none => issue1
      some issue2
    else
      if (issue.issueCategory == "Style" || issue.issueCategory == "Formatting")
          && !hallucinationReason verdict then
        some { issue with
          severity := "Minor"
          description := "[Review: Minor] " ++ issue.description }
      else none

/-- `initialReport.issues = filteredIssues` after the merge. -/
def applyVerdicts (verdicts : List VerificationVerdict)
    (initialReport : ScreenshotReport) : ScreenshotReport :=
  { initialReport with issues := initialReport.issues.filterMap (mergeVerdict verdicts) }

/-- `verifyIssues` (llmService.ts lines 235-371): primary call, fallback call on
error (returning the input report if that fails too), then the empty-body and
parse-failure guards, then the verdict merge. -/
def verifyIssues (initialReport : ScreenshotReport)
    (primaryCall fallbackCall : Except String GenResponse)
    (parseVerdicts : String → Option (List VerificationVerdict)) : ScreenshotReport :=
  let response? : Option GenResponse :=
    match primaryCall with
    | .ok r => some r
    | .error _ =>
      match fallbackCall with
      | .ok r => some r
      | .error _ => none
  match response? with
  | none => initialReport
  | some response =>
    match response.text with
    | none => initialReport
    | some responseText =>
      if responseText = "" then initialReport
      else
        match parseVerdicts responseText with
        | none => initialReport
        | some verdicts => applyVerdicts verdicts initialReport

/-- Claim C6: when the verifier cannot produce usable verdicts — both backend
calls throw, or the response body is absent or empty, or the response fails to
parse — `verifyIssues` returns the input report unchanged (on either the
primary or the fallback path). -/
theorem c6_verifier_failure_noop (report : ScreenshotReport) (e1 e2 : String)
    (fb : Except String GenResponse)
    (parseVerdicts : String → Option (List VerificationVerdict)) (s : String)
    (hs : parseVerdicts s = none) :
    verifyIssues report (Except.error e1) (Except.error e2) parseVerdicts = report ∧
    verifyIssues report (Except.ok { text := none }) fb parseVerdicts = report ∧
    verifyIssues report (Except.ok { text := some "" }) fb parseVerdicts = report ∧
    verifyIssues report (Except.ok { text := some s }) fb parseVerdicts = report ∧
    verifyIssues report (Except.error e1) (Except.ok { text := none }) parseVerdicts
      = report ∧
    verifyIssues report (Except.error e1) (Except.ok { text := some s }) parseVerdicts
      = report := by
  by_cases hempty : s = ""
  · subst hempty
    refine ⟨rfl, rfl, by simp [verifyIssues], by simp [verifyIssues], rfl,
      by simp [verifyIssues]⟩
  · refine ⟨rfl, rfl, by simp [verifyIssues], ?_, rfl, ?_⟩
    · simp [verifyIssues, hempty, hs]
    · simp [verifyIssues, hempty, hs]

def c6Issue : QaIssue :=
  { id := "Issue-06"
    location := "Form"
    issueCategory := "Grammar"
    severity := "Minor"
    sourceText := some "Saved"
    targetText := some "Gespeicherte"
    description := "Wrong adjective ending"
    suggestionRationale := "Grammar correctness"
    suggestionsTarget := ["Gespeichert"]
    glossarySource := none
    glossaryTermId := none }

def c6Report : ScreenshotReport :=
  { screenshotId := "shot-9"
    overall :=
      { qualityLevel := "Good"
        scores :=
          { accuracy := 5, terminology := 5, layout := 4, grammar := 5,
            formatting := 5, localizationTone := 5 }
        sceneDescription := "form"
        mainProblemsSummary := "minor grammar" }
    issues := [c6Issue]
    summary :=
      { severeCount := 0, majorCount := 0, minorCount := 1,
        optimizationAdvice := "none", termAdvice := none } }

theorem c6_verifier_failure_noop_witness :
    ((fun _ : String => (none : Option (List VerificationVerdict))) "not json")
        = none ∧
    verifyIssues c6Report (Except.error "http 500") (Except.error "http 500")
      (fun _ => none) = c6Report ∧
    verifyIssues c6Report (Except.ok { text := some "not json" })
      (Except.error "http 500") (fun _ => none) = c6Report :=
  ⟨rfl,
    (c6_verifier_failure_noop c6Report "http 500" "http 500" (Except.error "http 500")
      (fun _ => none) "not json" rfl).1,
    (c6_verifier_failure_noop c6Report "http 500" "http 500" (Except.error "http 500")
      (fun _ => none) "not json" rfl).2.2.2.1⟩

/-- The verdict merge never changes an issue's `id` or `issueCategory`
(it only rewrites severity, description, or rationale). -/
theorem mergeVerdict_preserves_id_cat (verdicts : List VerificationVerdict)
    (issue out : QaIssue) (h : mergeVerdict verdicts issue = some out) :
    out.id = issue.id ∧ out.issueCategory = issue.issueCategory := by
  unfold mergeVerdict at h
  cases hl : lookupVerdict verdicts issue.id with
  | none =>
    rw [hl] at h
    cases h
    exact ⟨rfl, rfl⟩
  | some v =>
    rw [hl] at h
    by_cases hval : v.isValid
    · simp only [hval, if_true] at h
      cases hsev : v.refinedSeverity with
      | none =>
        cases hrat : v.refinedRationale with
        | none => rw [hsev, hrat] at h; cases h; exact ⟨rfl, rfl⟩
        | some rtext =>
          rw [hsev, hrat] at h
          by_cases hre : rtext = "" <;> simp [hre] at h <;> cases h <;> exact ⟨rfl, rfl⟩
      | some sev =>
        cases hrat : v.refinedRationale with
        | none =>
          rw [hsev, hrat] at h
          by_cases hse : sev = "" <;> simp [hse] at h <;> cases h <;> exact ⟨rfl, rfl⟩
        | some rtext =>
          rw [hsev, hrat] at h
          by_cases hse : sev = "" <;> by_cases hre : rtext = "" <;>
            simp [hse, hre] at h <;> cases h <;> exact ⟨rfl, rfl⟩
    · simp only [hval, if_false, Bool.false_eq_true] at h
      by_cases hres : (issue.issueCategory == "Style" ||
          issue.issueCategory == "Formatting") && !hallucinationReason v
      · simp only [hres, if_true] at h
        cases h
        exact ⟨rfl, rfl⟩
      · simp [hres] at h

/-- Claim C3: an issue of category Style or Formatting whose verdict is
`isValid = false` with a reason containing none of the hallucination phrases is
rescued by the merge: it stays in the report with severity forced to `Minor` and
its description prefixed with the review marker. -/
theorem c3_verifier_rescue (report : ScreenshotReport)
    (verdicts : List VerificationVerdict) (issue : QaIssue) (v : VerificationVerdict)
    (hmem : issue ∈ report.issues)
    (hv : lookupVerdict verdicts issue.id = some v)
    (hinvalid : v.isValid = false)
    (hcat : issue.issueCategory = "Style" ∨ issue.issueCategory = "Formatting")
    (hreason : hallucinationReason v = false) :
    { issue with
      severity := "Minor"
      description := "[Review: Minor] " ++ issue.description }
      ∈ (applyVerdicts verdicts report).issues := by
  have hmerge : mergeVerdict verdicts issue = some
      { issue with
        severity := "Minor"
        description := "[Review: Minor] " ++ issue.description } := by
    unfold mergeVerdict
    rw [hv]
    simp [hinvalid, hreason]
    exact fun h => hcat.resolve_left h
  exact List.mem_filterMap.mpr ⟨issue, hmem, hmerge⟩

def c3Issue : QaIssue :=
  { id := "Issue-03"
    location := "Footer"
    issueCategory := "Style"
    severity := "Major"
    sourceText := some "Please try again"
    targetText := some "Bitte erneut versuchen"
    description := "Tone too informal"
    suggestionRationale := "Register consistency"
    suggestionsTarget := ["Bitte versuchen Sie es erneut"]
    glossarySource := none
    glossaryTermId := none }

def c3Verdict : VerificationVerdict :=
  { id := "Issue-03"
    isValid := false
    reason := some "Too subjective to enforce"
    refinedSeverity := none
    refinedRationale := none }

def c3Report : ScreenshotReport :=
  { screenshotId := "shot-10"
    overall :=
      { qualityLevel := "Good"
        scores :=
          { accuracy := 5, terminology := 5, layout := 5, grammar := 5,
            formatting := 5, localizationTone := 3 }
        sceneDescription := "error page"
        mainProblemsSummary := "style only" }
    issues := [c3Issue]
    summary :=
      { severeCount := 0, majorCount := 1, minorCount := 0,
        optimizationAdvice := "soften tone", termAdvice := none } }

theorem c3_verifier_rescue_witness :
    (c3Issue ∈ c3Report.issues) ∧
    lookupVerdict [c3Verdict] c3Issue.id = some c3Verdict ∧
    c3Verdict.isValid = false ∧
    (c3Issue.issueCategory = "Style" ∨ c3Issue.issueCategory = "Formatting") ∧
    hallucinationReason c3Verdict = false ∧
    ({ c3Issue with
        severity := "Minor"
        description := "[Review: Minor] " ++ c3Issue.description }
      ∈ (applyVerdicts [c3Verdict] c3Report).issues) :=
  ⟨by decide, by decide, by decide, by decide, by decide,
    c3_verifier_rescue c3Report [c3Verdict] c3Issue c3Verdict (by decide) (by decide)
      (by decide) (by decide) (by decide)⟩

/-- Claim C4: an issue of category Layout, Terminology, Mistranslation, or Other
whose verdict is `isValid = false` is dropped by the merge: it does not occur in
the verified issue list (for these categories the rescue branch cannot fire, and
the merge preserves ids and categories, so no other issue can reintroduce it). -/
theorem c4_verifier_drop (report : ScreenshotReport)
    (verdicts : List VerificationVerdict) (issue : QaIssue) (v : VerificationVerdict)
    (hv : lookupVerdict verdicts issue.id = some v)
    (hinvalid : v.isValid = false)
    (hcat : issue.issueCategory = "Layout" ∨ issue.issueCategory = "Terminology" ∨
      issue.issueCategory = "Mistranslation" ∨ issue.issueCategory = "Other") :
    issue ∉ (applyVerdicts verdicts report).issues := by
  intro hmem
  have hmem' : issue ∈ report.issues.filterMap (mergeVerdict verdicts) := hmem
  rcases List.mem_filterMap.mp hmem' with ⟨b, hb, hbmerge⟩
  have hpres := mergeVerdict_preserves_id_cat verdicts b issue hbmerge
  have hid : issue.id = b.id := hpres.1.symm ▸ hpres.1
  have hvb : lookupVerdict verdicts b.id = some v := by
    rw [← hpres.1]
    exact hv
  unfold mergeVerdict at hbmerge
  rw [hvb] at hbmerge
  simp only [hinvalid, if_false, Bool.false_eq_true] at hbmerge
  by_cases hres : (b.issueCategory == "Style" || b.issueCategory == "Formatting")
      && !hallucinationReason v
  · simp only [hres, if_true] at hbmerge
    have hcatb : issue.issueCategory = b.issueCategory := by
      cases hbmerge
      rfl
    have hsf : b.issueCategory = "Style" ∨ b.issueCategory = "Formatting" := by
      have h' := hres
      simp only [Bool.and_eq_true, Bool.or_eq_true, beq_iff_eq] at h'
      exact h'.1
    rcases hcat with h | h | h | h <;> rcases hsf with hs | hs <;>
      rw [h, hs] at hcatb <;> simp at hcatb
  · simp [hres] at hbmerge

def c4Issue : QaIssue :=
  { id := "Issue-04"
    location := "Sidebar"
    issueCategory := "Layout"
    severity := "Critical"
    sourceText := none
    targetText := none
    description := "Claimed truncation of a label"
    suggestionRationale := "Prevents UI breakage"
    suggestionsTarget := ["Shorten label"]
    glossarySource := none
    glossaryTermId := none }

def c4Verdict : VerificationVerdict :=
  { id := "Issue-04"
    isValid := false
    reason := some "The described button does not exist in the screenshot"
    refinedSeverity := none
    refinedRationale := none }

def c4Report : ScreenshotReport :=
  { screenshotId := "shot-11"
    overall :=
      { qualityLevel := "Poor"
        scores :=
          { accuracy := 5, terminology := 5, layout := 2, grammar := 5,
            formatting := 5, localizationTone := 5 }
        sceneDescription := "dashboard"
        mainProblemsSummary := "layout claim" }
    issues := [c4Issue]
    summary :=
      { severeCount := 1, majorCount := 0, minorCount := 0,
        optimizationAdvice := "recheck", termAdvice := none } }

theorem c4_verifier_drop_witness :
    lookupVerdict [c4Verdict] c4Issue.id = some c4Verdict ∧
    c4Verdict.isValid = false ∧
    (c4Issue.issueCategory = "Layout" ∨ c4Issue.issueCategory = "Terminology" ∨
      c4Issue.issueCategory = "Mistranslation" ∨ c4Issue.issueCategory = "Other") ∧
    c4Issue ∉ (applyVerdicts [c4Verdict] c4Report).issues :=
  ⟨by decide, by decide, by decide,
    c4_verifier_drop c4Report [c4Verdict] c4Issue c4Verdict (by decide) (by decide)
      (by decide)⟩

/-! ## Retry with backoff (llmService.ts lines 179-192) and model fallback
(lines 493-498)

`fn i` is the outcome of the i-th invocation of the retried thunk.  Besides the
final outcome, the embedding records the backoff delays actually slept and the
number of attempts made, so that the retry policy itself is observable. -/

/-- `retryWithBackoff(fn, retries, delay)`: try `fn`; on an exception with no
retries left rethrow it, otherwise sleep `delay` ms and recurse with
`retries - 1` and `delay * 2`.  Returns (outcome, delays slept, attempts made). -/
def retryWithBackoff {E A : Type} (fn : Nat → Except E A)
    (attempt retries delay : Nat) : Except E A × List Nat × Nat :=
  match fn attempt with
  | .ok a => (.ok a, [], 1)
  | .error e =>
    match retries with
    | 0 => (.error e, [], 1)
    | r + 1 =>
      let next := retryWithBackoff fn (attempt + 1) r (delay * 2)
      (next.1, delay :: next.2.1, next.2.2 + 1)

/-- Boolean success test on `Except`. -/
def exceptIsOk {E A : Type} : Except E A → Bool
  | .ok _ => true
  | .error _ => false

/-- The tail of `callTranslationQaLLM` (llmService.ts lines 493-498): run the
analysis with the primary model under `retryWithBackoff` (defaults: 2 retries,
1000 ms); if that still throws, run the whole retried call again with the
fallback model and its own identical budget. -/
def runWithFallback {E A : Type} (primaryFn fallbackFn : Nat → Except E A) :
    Except E A :=
  match (retryWithBackoff primaryFn 0 2 1000).1 with
  | .ok a => .ok a
  | .error _ => (retryWithBackoff fallbackFn 0 2 1000).1

/-- Claim C5: when every attempt of the primary analysis call throws,
`retryWithBackoff` makes exactly 3 attempts (1 initial + 2 retries) sleeping
1000 ms then 2000 ms and propagates the last exception; `callTranslationQaLLM`
then repeats the entire retried call against the fallback model with its own
identical budget; and if any of the fallback's 3 attempts succeeds, no error
reaches the caller (so an error surfaces only when the fallback budget is also
exhausted). -/
theorem c5_retry_and_fallback {E A : Type} (primaryFn fallbackFn : Nat → Except E A)
    (e0 e1 e2 : E)
    (h0 : primaryFn 0 = .error e0) (h1 : primaryFn 1 = .error e1)
    (h2 : primaryFn 2 = .error e2) :
    retryWithBackoff primaryFn 0 2 1000 = (.error e2, [1000, 2000], 3) ∧
    runWithFallback primaryFn fallbackFn = (retryWithBackoff fallbackFn 0 2 1000).1 ∧
    ((exceptIsOk (fallbackFn 0) || exceptIsOk (fallbackFn 1) ||
        exceptIsOk (fallbackFn 2)) = true →
      exceptIsOk (runWithFallback primaryFn fallbackFn) = true) := by
  have hretry : retryWithBackoff primaryFn 0 2 1000 = (.error e2, [1000, 2000], 3) := by
    simp [retryWithBackoff, h0, h1, h2]
  refine ⟨hretry, ?_, ?_⟩
  · unfold runWithFallback
    rw [hretry]
  · intro hok
    unfold runWithFallback
    rw [hretry]
    cases hf0 : fallbackFn 0 with
    | ok a => simp [retryWithBackoff, hf0, exceptIsOk]
    | error g0 =>
      cases hf1 : fallbackFn 1 with
      | ok a => simp [retryWithBackoff, hf0, hf1, exceptIsOk]
      | error g1 =>
        cases hf2 : fallbackFn 2 with
        | ok a => simp [retryWithBackoff, hf0, hf1, hf2, exceptIsOk]
        | error g2 =>
          rw [hf0, hf1, hf2] at hok
          simp [exceptIsOk] at hok

def c5PrimaryFn : Nat → Except String Unit := fun _ => .error "rate limited"

def c5FallbackFn : Nat → Except String Unit := fun i =>
  if i = 0 then .error "rate limited" else .ok ()

theorem c5_retry_and_fallback_witness :
    c5PrimaryFn 0 = .error "rate limited" ∧
    c5PrimaryFn 1 = .error "rate limited" ∧
    c5PrimaryFn 2 = .error "rate limited" ∧
    (retryWithBackoff c5PrimaryFn 0 2 1000 = (.error "rate limited", [1000, 2000], 3) ∧
      runWithFallback c5PrimaryFn c5FallbackFn =
        (retryWithBackoff c5FallbackFn 0 2 1000).1 ∧
      ((exceptIsOk (c5FallbackFn 0) || exceptIsOk (c5FallbackFn 1) ||
          exceptIsOk (c5FallbackFn 2)) = true →
        exceptIsOk (runWithFallback c5PrimaryFn c5FallbackFn) = true)) :=
  ⟨rfl, rfl, rfl,
    c5_retry_and_fallback c5PrimaryFn c5FallbackFn "rate limited" "rate limited"
      "rate limited" rfl rfl rfl⟩

/-! ## Score consistency and strict quality label (spec-modelled)

`enforceScoreConsistency` and `determineStrictQuality` live in
`src/services/reportGenerator.ts`, which is not among the provided sources; only
their caller (`callTranslationQaLLM`) is.  They are therefore modelled from the
spec (§4.6 steps 2 and 3). -/

/-- Modelled from the spec: `determineStrictQuality` of the missing
`src/services/reportGenerator.ts`.  Per §4.6 step 3 it is "a pure function of
the final `issues` list — counts by severity — that returns one of a fixed
ordered set of quality levels", and this label always overwrites the model's
self-reported one. -/
def determineStrictQuality (report : ScreenshotReport) : String :=
  let criticalCount := report.issues.countP (fun i => i.severity == "Critical")
  let majorCount := report.issues.countP (fun i => i.severity == "Major")
  let minorCount := report.issues.countP (fun i => i.severity == "Minor")
  if criticalCount > 0 then "Critical"
  else if majorCount > 0 then "Poor"
  else if minorCount > 2 then "Average"
  else if minorCount > 0 then "Good"
  else "Perfect"

/-- Modelled from the spec: the per-dimension cap of `enforceScoreConsistency`
of the missing `src/services/reportGenerator.ts`.  Per §4.6 step 2, "no
dimension exceeds a bound implied by the presence of Critical/Major issues in
the corresponding category — scores may only be enforced downward, never
raised". -/
def capScore (report : ScreenshotReport) (category : String) (score : Int) : Int :=
  if report.issues.any (fun i => i.issueCategory == category && i.severity == "Critical")
    then min score 2
  else if report.issues.any (fun i => i.issueCategory == category && i.severity == "Major")
    then min score 3
  else score

/-- Modelled from the spec: `enforceScoreConsistency` of the missing
`src/services/reportGenerator.ts` (§4.6 step 2) — given `issues` and `scores`,
return the report with each score dimension capped by `capScore` for its
category; issues are untouched. -/
def enforceScoreConsistency (report : ScreenshotReport) : ScreenshotReport :=
  { report with overall := { report.overall with scores :=
      { accuracy := capScore report "Mistranslation" report.overall.scores.accuracy
        terminology := capScore report "Terminology" report.overall.scores.terminology
        layout := capScore report "Layout" report.overall.scores.layout
        grammar := capScore report "Grammar" report.overall.scores.grammar
        formatting := capScore report "Formatting" report.overall.scores.formatting
        localizationTone := capScore report "Style" report.overall.scores.localizationTone } } }

/-! ## The two pipeline tails

`clientPipeline` is the post-parse tail of `callTranslationQaLLM`
(llmService.ts lines 457-490): stamp the request's screenshot id, run the
verifier when there are issues, sanitize, enforce score consistency, overwrite
the quality label with the strict one.  `serverPipeline` is the post-parse tail
of `analyzeScreenshot` (functions/src/index.ts lines 311-320): stamp the id,
verify, sanitize — and nothing else. -/

/-- Client-side post-parse pipeline tail of `callTranslationQaLLM`. -/
def clientPipeline (screenshotId : String) (glossaryText : Option String)
    (parsedReport : ScreenshotReport)
    (verifierPrimary verifierFallback : Except String GenResponse)
    (parseVerdicts : String → Option (List VerificationVerdict)) : ScreenshotReport :=
  let report0 := { parsedReport with screenshotId := screenshotId }
  let report1 :=
    if report0.issues.length > 0 then
      verifyIssues report0 verifierPrimary verifierFallback parseVerdicts
    else report0
  let report2 := sanitizeReport report1 glossaryText
  let report3 := enforceScoreConsistency report2
  { report3 with overall :=
      { report3.overall with qualityLevel := determineStrictQuality report3 } }

/-- The server-side verifier merge (functions/src/index.ts lines 232-251): as
the client merge but with no `refinedRationale` handling. -/
def serverMergeVerdict (verdicts : List VerificationVerdict) (issue : QaIssue) :
    Option QaIssue :=
  match lookupVerdict verdicts issue.id with
  | none => some issue
  | some verdict =>
    if verdict.isValid then
      match verdict.refinedSeverity with
      | some s => if s = "" then some issue else some { issue with severity := s }
      | none => some issue
    else
      if (issue.issueCategory == "Style" || issue.issueCategory == "Formatting")
          && !hallucinationReason verdict then
        some { issue with
          severity := "Minor"
          description := "[Review: Minor] " ++ issue.description }
      else none

/-- The server-side `verifyIssues` (functions/src/index.ts lines 160-260): one
try block around a single backend call and the parse; any failure (call threw,
empty body, parse threw) returns the input report. -/
def serverVerifyIssues (initialReport : ScreenshotReport)
    (call : Except String GenResponse)
    (parseVerdicts : String → Option (List VerificationVerdict)) : ScreenshotReport :=
  match call with
  | .error _ => initialReport
  | .ok response =>
    match response.text with
    | none => initialReport
    | some responseText =>
      if responseText = "" then initialReport
      else
        match parseVerdicts responseText with
        | none => initialReport
        | some verdicts =>
          { initialReport with
            issues := initialReport.issues.filterMap (serverMergeVerdict verdicts) }

/-- Server-side post-parse pipeline tail of `analyzeScreenshot`: only
verification and hallucination sanitization; the model's `qualityLevel` and
scores are returned as-is. -/
def serverPipeline (screenshotId : String) (glossaryText : Option String)
    (parsedReport : ScreenshotReport)
    (verifierCall : Except String GenResponse)
    (parseVerdicts : String → Option (List VerificationVerdict)) : ScreenshotReport :=
  let report0 := { parsedReport with screenshotId := screenshotId }
  let report1 :=
    if report0.issues.length > 0 then
      serverVerifyIssues report0 verifierCall parseVerdicts
    else report0
  sanitizeReport report1 glossaryText

/-! ## Claim C1: the non-empty-suggestions invariant -/

/-- The verdict merge never touches `suggestionsTarget`. -/
theorem mergeVerdict_suggestions (verdicts : List VerificationVerdict)
    (issue out : QaIssue) (h : mergeVerdict verdicts issue = some out) :
    out.suggestionsTarget = issue.suggestionsTarget := by
  unfold mergeVerdict at h
  cases hl : lookupVerdict verdicts issue.id with
  | none =>
    rw [hl] at h
    cases h
    rfl
  | some v =>
    rw [hl] at h
    by_cases hval : v.isValid
    · simp only [hval, if_true] at h
      cases hsev : v.refinedSeverity with
      | none =>
        cases hrat : v.refinedRationale with
        | none => rw [hsev, hrat] at h; cases h; rfl
        | some rtext =>
          rw [hsev, hrat] at h
          by_cases hre : rtext = "" <;> simp [hre] at h <;> cases h <;> rfl
      | some sev =>
        cases hrat : v.refinedRationale with
        | none =>
          rw [hsev, hrat] at h
          by_cases hse : sev = "" <;> simp [hse] at h <;> cases h <;> rfl
        | some rtext =>
          rw [hsev, hrat] at h
          by_cases hse : sev = "" <;> by_cases hre : rtext = "" <;>
            simp [hse, hre] at h <;> cases h <;> rfl
    · simp only [hval, if_false, Bool.false_eq_true] at h
      by_cases hres : (issue.issueCategory == "Style" ||
          issue.issueCategory == "Formatting") && !hallucinationReason v
      · simp only [hres, if_true] at h
        cases h
        rfl
      · simp [hres] at h

/-- Every issue surviving the verdict merge carries the `suggestionsTarget` of
an issue of the input report. -/
theorem applyVerdicts_suggestions (verdicts : List VerificationVerdict)
    (r : ScreenshotReport) :
    ∀ j ∈ (applyVerdicts verdicts r).issues, ∃ i ∈ r.issues,
      j.suggestionsTarget = i.suggestionsTarget := by
  intro j hj
  rcases List.mem_filterMap.mp hj with ⟨i, hi, hmerge⟩
  exact ⟨i, hi, mergeVerdict_suggestions verdicts i j hmerge⟩

/-- `verifyIssues` either no-ops or applies a verdict merge. -/
theorem verifyIssues_cases (r : ScreenshotReport) (pc fc : Except String GenResponse)
    (parse : String → Option (List VerificationVerdict)) :
    verifyIssues r pc fc parse = r ∨
      ∃ vs, verifyIssues r pc fc parse = applyVerdicts vs r := by
  unfold verifyIssues
  cases pc with
  | error e =>
    cases fc with
    | error e2 => exact Or.inl rfl
    | ok resp =>
      cases hresp : resp.text with
      | none => exact Or.inl (by simp [hresp])
      | some t =>
        by_cases ht : t = ""
        · exact Or.inl (by simp [hresp, ht])
        · cases hp : parse t with
          | none => exact Or.inl (by simp [hresp, ht, hp])
          | some vs => exact Or.inr ⟨vs, by simp [hresp, ht, hp]⟩
  | ok resp =>
    cases hresp : resp.text with
    | none => exact Or.inl (by simp [hresp])
    | some t =>
      by_cases ht : t = ""
      · exact Or.inl (by simp [hresp, ht])
      · cases hp : parse t with
        | none => exact Or.inl (by simp [hresp, ht, hp])
        | some vs => exact Or.inr ⟨vs, by simp [hresp, ht, hp]⟩

/-- The hallucination guard never touches `suggestionsTarget` of an issue. -/
theorem sanitizeIssue_suggestions (v : List String) (i : QaIssue) :
    (sanitizeIssue v i).suggestionsTarget = i.suggestionsTarget := by
  unfold sanitizeIssue
  by_cases hc : i.issueCategory == "Terminology" <;>
    by_cases hg : issueGrounded v i <;> simp [hc, hg]

/-- Every issue of a sanitized report carries the `suggestionsTarget` of an
issue of the input report. -/
theorem sanitizeReport_suggestions (r : ScreenshotReport) (gt : Option String) :
    ∀ j ∈ (sanitizeReport r gt).issues, ∃ i ∈ r.issues,
      j.suggestionsTarget = i.suggestionsTarget := by
  intro j hj
  cases gt with
  | none => exact ⟨j, hj, rfl⟩
  | some g =>
    by_cases hg : g = ""
    · subst hg
      simp only [sanitizeReport, if_pos] at hj
      exact ⟨j, hj, rfl⟩
    · rw [sanitizeReport_some r g hg] at hj
      by_cases hcnt : ((r.issues.map (sanitizeIssue (extractValidIds g))).filter
          (fun i => i.issueCategory == "Terminology")).length = 0
      · rw [if_pos hcnt] at hj
        rcases List.mem_map.mp hj with ⟨i, hi, rfl⟩
        exact ⟨i, hi, sanitizeIssue_suggestions _ i⟩
      · rw [if_neg hcnt] at hj
        rcases List.mem_map.mp hj with ⟨i, hi, rfl⟩
        exact ⟨i, hi, sanitizeIssue_suggestions _ i⟩

/-- The issues coming out of the client pipeline tail are exactly the issues
after verification and sanitization (score enforcement and the label overwrite
do not touch them). -/
theorem clientPipeline_issues (screenshotId : String) (glossaryText : Option String)
    (parsedReport : ScreenshotReport) (pc fc : Except String GenResponse)
    (parse : String → Option (List VerificationVerdict)) :
    (clientPipeline screenshotId glossaryText parsedReport pc fc parse).issues =
      (sanitizeReport
        (if ({ parsedReport with screenshotId := screenshotId } : ScreenshotReport).issues.length > 0 then
          verifyIssues { parsedReport with screenshotId := screenshotId } pc fc parse
        else { parsedReport with screenshotId := screenshotId }) glossaryText).issues := rfl

/-- Claim C1 (amended): the pipeline never modifies `suggestionsTarget` — it is
non-empty for every issue of the returned report provided it was non-empty for
every issue of the backend's parsed response.  (The claim as frozen — "regardless
of what the generation backend actually returned" — fails; non-emptiness is
requested from the model through the response schema but not enforced in code.) -/
theorem c1_amended_suggestions_preserved (screenshotId : String)
    (glossaryText : Option String) (parsedReport : ScreenshotReport)
    (pc fc : Except String GenResponse)
    (parse : String → Option (List VerificationVerdict))
    (h : ∀ i ∈ parsedReport.issues, i.suggestionsTarget ≠ []) :
    ∀ j ∈ (clientPipeline screenshotId glossaryText parsedReport pc fc parse).issues,
      j.suggestionsTarget ≠ [] := by
  intro j hj
  rw [clientPipeline_issues] at hj
  have h0 : ∀ i ∈ ({ parsedReport with screenshotId := screenshotId } :
      ScreenshotReport).issues, i.suggestionsTarget ≠ [] := h
  generalize hg0 : ({ parsedReport with screenshotId := screenshotId } :
      ScreenshotReport) = r0 at hj h0
  have h1 : ∀ i ∈ (if r0.issues.length > 0 then verifyIssues r0 pc fc parse
      else r0).issues, i.suggestionsTarget ≠ [] := by
    by_cases hlen : r0.issues.length > 0
    · rw [if_pos hlen]
      rcases verifyIssues_cases r0 pc fc parse with heq | ⟨vs, heq⟩
      · rw [heq]; exact h0
      · rw [heq]
        intro i hi
        obtain ⟨i0, hi0, heqs⟩ := applyVerdicts_suggestions vs r0 i hi
        rw [heqs]
        exact h0 i0 hi0
    · rw [if_neg hlen]; exact h0
  obtain ⟨i1, hi1, heqs⟩ := sanitizeReport_suggestions _ glossaryText j hj
  rw [heqs]
  exact h1 i1 hi1

def c1Issue : QaIssue :=
  { id := "Issue-01"
    location := "Header"
    issueCategory := "Layout"
    severity := "Major"
    sourceText := some "Settings"
    targetText := some "Einstellungen"
    description := "Label truncated"
    suggestionRationale := "Prevents UI breakage"
    suggestionsTarget := []
    glossarySource := none
    glossaryTermId := none }

def c1Report : ScreenshotReport :=
  { screenshotId := ""
    overall :=
      { qualityLevel := "Average"
        scores :=
          { accuracy := 4, terminology := 5, layout := 2, grammar := 5,
            formatting := 5, localizationTone := 4 }
        sceneDescription := "navigation"
        mainProblemsSummary := "truncation" }
    issues := [c1Issue]
    summary :=
      { severeCount := 0, majorCount := 1, minorCount := 0,
        optimizationAdvice := "shorten labels", termAdvice := none } }

/-- Claim C1 counterexample: a backend response carrying an issue with an empty
`suggestionsTarget` flows through the whole client pipeline (verifier returned
no verdicts, no glossary) and is returned with its `suggestionsTarget` still
empty — the pipeline does not establish the non-empty-suggestions invariant. -/
theorem c1_counterexample :
    ((clientPipeline "shot-1" none c1Report (Except.ok { text := some "ok" })
        (Except.ok { text := some "ok" }) (fun _ => some [])).issues.any
      (fun i => i.suggestionsTarget.isEmpty)) = true := by
  decide

def c1wIssue : QaIssue :=
  { id := "Issue-01"
    location := "Header"
    issueCategory := "Layout"
    severity := "Major"
    sourceText := some "Settings"
    targetText := some "Einstellungen"
    description := "Label truncated"
    suggestionRationale := "Prevents UI breakage"
    suggestionsTarget := ["Einstell."]
    glossarySource := none
    glossaryTermId := none }

def c1wReport : ScreenshotReport :=
  { screenshotId := ""
    overall :=
      { qualityLevel := "Average"
        scores :=
          { accuracy := 4, terminology := 5, layout := 2, grammar := 5,
            formatting := 5, localizationTone := 4 }
        sceneDescription := "navigation"
        mainProblemsSummary := "truncation" }
    issues := [c1wIssue]
    summary :=
      { severeCount := 0, majorCount := 1, minorCount := 0,
        optimizationAdvice := "shorten labels", termAdvice := none } }

theorem c1_amended_suggestions_preserved_witness :
    (∀ i ∈ c1wReport.issues, i.suggestionsTarget ≠ []) ∧
    (∀ j ∈ (clientPipeline "shot-1" none c1wReport (Except.ok { text := some "ok" })
        (Except.ok { text := some "ok" }) (fun _ => some [])).issues,
      j.suggestionsTarget ≠ []) :=
  ⟨by decide,
    c1_amended_suggestions_preserved "shot-1" none c1wReport
      (Except.ok { text := some "ok" }) (Except.ok { text := some "ok" })
      (fun _ => some []) (by decide)⟩

/-! ## Claim C10: the client and server pipeline tails are not output-equivalent -/

def c10Report : ScreenshotReport :=
  { screenshotId := ""
    overall :=
      { qualityLevel := "Poor"
        scores :=
          { accuracy := 3, terminology := 3, layout := 3, grammar := 3,
            formatting := 3, localizationTone := 3 }
        sceneDescription := "dashboard"
        mainProblemsSummary := "model thinks it is poor" }
    issues := []
    summary :=
      { severeCount := 0, majorCount := 0, minorCount := 0,
        optimizationAdvice := "none", termAdvice := none } }

/-- Claim C10: given the same backend response (an issue-free report whose
self-reported `qualityLevel` is "Poor"), the server tail returns the model's
label as-is while the client tail overwrites it with the deterministically
derived strict level, so the two pipeline variants produce different outputs. -/
theorem c10_pipelines_not_equivalent :
    (serverPipeline "shot-1" none c10Report (Except.error "down")
      (fun _ => none)).overall.qualityLevel = "Poor" ∧
    (clientPipeline "shot-1" none c10Report (Except.error "down") (Except.error "down")
      (fun _ => none)).overall.qualityLevel = "Perfect" ∧
    clientPipeline "shot-1" none c10Report (Except.error "down") (Except.error "down")
        (fun _ => none) ≠
      serverPipeline "shot-1" none c10Report (Except.error "down") (fun _ => none) := by
  refine ⟨by decide, by decide, by decide⟩
